import Mathlib

/-!
Verification of the paper-ecash PDF generator (`generate_ecash_pdf.py`)
against its natural-language specification.

The development shallowly embeds the script:
* the token loader (`main`, lines 301-303) as `load_notes`,
* the per-token QR artifact generator (`generate_qr_code`, lines 11-104) as
  `generate_qr_code` / `generate_qr_code_body`, with the outcomes of the
  external tool invocations (`magick`, `identify`) supplied by an `Env` record,
* the batch loop of `main` (lines 307-316) as `build_qr_files` / `batch_trace`,
* the LaTeX layout builder (`generate_latex`, lines 106-232) as a structured
  chunk list (`Chunk`), one constructor per `content +=` site, with the
  `\overlayimage` / `\backimage` macro bodies (template lines 151-176)
  embedded as `overlayimage` / `backimage`,
* the post-batch fatal check and render step of `main` (lines 318-345) as
  `main_after_batch`.
-/

set_option linter.unusedVariables false

/-! ## Token loader (main, lines 301-303) -/

/-- CPython `str.strip()` whitespace set, restricted to ASCII
(space, tab, newline, carriage return, vertical tab, form feed). -/
def pyWhitespace (c : Char) : Bool :=
  c = ' ' || c = '\t' || c = '\n' || c = '\r' || c = Char.ofNat 11 || c = Char.ofNat 12

/-- Python `line.strip()`: drop leading and trailing whitespace. -/
def pyStrip (s : String) : String :=
  String.mk (((s.toList.dropWhile pyWhitespace).reverse.dropWhile pyWhitespace).reverse)

/-- `notes = [line.strip() for line in csvfile if line.strip()]` (line 303),
with the file presented as its list of raw lines. -/
def load_notes (lines : List String) : List String :=
  (lines.filter (fun line => pyStrip line != "")).map pyStrip

/-! ## Per-token artifact generator (generate_qr_code, lines 11-104) -/

/-- Outcomes of the external tool invocations made by one `generate_qr_code`
call: return codes and captured streams of the `magick -transparent` step,
the `identify -format %w` step and the icon-overlay `magick -composite` step. -/
structure Env where
  magick1_rc : Int
  magick1_stderr : String
  identify_rc : Int
  identify_stderr : String
  identify_stdout : String
  overlay_rc : Int
  overlay_stderr : String

/-- Observable result of one `generate_qr_code` call: the returned boolean,
whether the temporary composite file `output_file + '.temp.png'` was created,
whether it was removed again, and the printed diagnostics. -/
structure QrResult where
  ok : Bool
  tempCreated : Bool
  tempRemoved : Bool
  diagnostics : List String

/-- Value of a decimal digit character. -/
def digitsToNat (l : List Char) : ℕ :=
  l.foldl (fun acc c => 10 * acc + (c.toNat - 48)) 0

/-- Python `int(s)` on an already-stripped string: an optional sign followed
by at least one decimal digit parses to its value, anything else raises
`ValueError` (`none`). -/
def pyInt? (s : String) : Option Int :=
  match s.toList with
  | [] => none
  | '-' :: rest =>
    if rest ≠ [] ∧ rest.all Char.isDigit then some (-(digitsToNat rest : Int)) else none
  | '+' :: rest =>
    if rest ≠ [] ∧ rest.all Char.isDigit then some ((digitsToNat rest : Int)) else none
  | l => if l.all Char.isDigit then some ((digitsToNat l : Int)) else none

/-- Python truthiness of an optional string argument (`if icon_file:`):
`None` and the empty string are falsy. -/
def pyTruthyOpt : Option String → Bool
  | none => false
  | some s => s != ""

/-- The body of the `try:` block of `generate_qr_code` (lines 21-101).
A normal `return False`/`return True` is `Except.ok`; the one statement that
can raise — `int(qr_info.stdout.strip())` on line 58 — is `Except.error`,
carrying the exception text and the temp-file state at the raise site
(created, not removed).  The temporary file is created by the first `magick`
invocation (line 34, modelled as created exactly when that step exits 0) and
removed only at lines 80-81, after the overlay step, before its return code
is inspected. -/
def generate_qr_code_body (note output_file error_correction : String)
    (icon_file : Option String) (icon_size_percent : ℚ) (env : Env) :
    Except (String × Bool × Bool) QrResult :=
  if pyTruthyOpt icon_file then
    if env.magick1_rc ≠ 0 then
      Except.ok ⟨false, false, false, ["Error generating QR code: " ++ env.magick1_stderr]⟩
    else if env.identify_rc ≠ 0 then
      Except.ok ⟨false, true, false,
        ["Error getting QR code dimensions: " ++ env.identify_stderr]⟩
    else
      match pyInt? (pyStrip env.identify_stdout) with
      | none =>
        Except.error
          ("invalid literal for int with base 10: " ++ env.identify_stdout, true, false)
      | some _qr_width =>
        if env.overlay_rc ≠ 0 then
          Except.ok ⟨false, true, true, ["Error overlaying icon: " ++ env.overlay_stderr]⟩
        else
          Except.ok ⟨true, true, true, []⟩
  else
    if env.magick1_rc ≠ 0 then
      Except.ok ⟨false, false, false, ["Error generating QR code: " ++ env.magick1_stderr]⟩
    else
      Except.ok ⟨true, false, false, []⟩

/-- `generate_qr_code` with its catch-all handler (lines 102-104): an
exception escaping the body is caught, a diagnostic is printed, and `False`
is returned. -/
def generate_qr_code (note output_file error_correction : String)
    (icon_file : Option String) (icon_size_percent : ℚ) (env : Env) : QrResult :=
  match generate_qr_code_body note output_file error_correction icon_file icon_size_percent env with
  | Except.ok r => r
  | Except.error e => ⟨false, e.2.1, e.2.2, ["Error generating QR code for note: " ++ e.1]⟩

/-! ## CLI argument policy (main, lines 262, 273-276) -/

/-- `argparse` default of `--qr-error-correction` (line 262). -/
def default_error_correction : String := "M"

/-- Lines 273-276: `if args.qr_icon and args.qr_error_correction == 'M':`
upgrade the level to `'H'` and print an informational notice.  Returns the
effective level and whether the notice was printed. -/
def effective_args (qr_icon : Option String) (qr_error_correction : String) : String × Bool :=
  if pyTruthyOpt qr_icon && (qr_error_correction == "M") then ("H", true)
  else (qr_error_correction, false)

/-! ## Batch loop (main, lines 307-316) -/

/-- Python `f"{i:04d}"`: decimal digits of `i`, left-padded with zeros to at
least four characters. -/
def pad4 (i : ℕ) : String :=
  String.mk (List.replicate (4 - (toString i).length) '0') ++ toString i

/-- `qr_filename = f"ecash_{i:04d}.png"` (line 308). -/
def qr_filename (i : ℕ) : String := "ecash_" ++ pad4 i ++ ".png"

/-- `qr_path = qr_dir / qr_filename` (line 309). -/
def qr_path (qr_dir : String) (i : ℕ) : String := qr_dir ++ "/" ++ qr_filename i

/-- The loop `for i, note in enumerate(notes, 1)` (lines 307-316): the path
is assigned from the 1-based position, `generate_qr_code` is called (its
external-tool outcomes for position `i` given by `envs i`), and the path is
appended to `qr_files` exactly when it returns `True`. -/
def build_qr_files (qr_dir error_correction : String) (icon : Option String)
    (icon_size_percent : ℚ) (envs : ℕ → Env) : List String → ℕ → List String
  | [], _ => []
  | note :: rest, i =>
    (if (generate_qr_code note (qr_path qr_dir i) error_correction icon icon_size_percent
        (envs i)).ok then [qr_path qr_dir i] else []) ++
      build_qr_files qr_dir error_correction icon icon_size_percent envs rest (i + 1)

/-- The same loop, recording for every token (in order) the path assigned to
it on line 308-309 and whether its generation succeeded. -/
def batch_trace (qr_dir error_correction : String) (icon : Option String)
    (icon_size_percent : ℚ) (envs : ℕ → Env) : List String → ℕ → List (String × Bool)
  | [], _ => []
  | note :: rest, i =>
    (qr_path qr_dir i,
      (generate_qr_code note (qr_path qr_dir i) error_correction icon icon_size_percent
        (envs i)).ok) ::
      batch_trace qr_dir error_correction icon icon_size_percent envs rest (i + 1)

/-! ## Layout document builder (generate_latex, lines 106-232)

The emitted LaTeX text is represented structurally: one `Chunk` constructor
per `content +=` site of the source, carrying the data interpolated there.
-/

/-- The three dashed cutting guides drawn by `\overlayimage`
(template lines 162-164). -/
inductive CutLine where
  | bottom
  | top
  | right
  deriving DecidableEq

/-- One element of a tikzpicture body produced by the `\overlayimage` /
`\backimage` macros (template lines 151-176). -/
inductive TikzElem where
  | baseImage (path : String)
  | qrOverlay (path : String)
  | cutLine (line : CutLine)
  deriving DecidableEq

/-- Node anchoring corner: fronts hang from the page's top-left corner
(line 197/200, `anchor=north west ... current page.north west`,
`xshift=\pagemargin`), backs from the top-right corner
(line 216/219, `anchor=north east ... current page.north east`,
`xshift=-\pagemargin`). -/
inductive Anchor where
  | northWest
  | northEast
  deriving DecidableEq

/-- One `content +=` site of `generate_latex`.  A `node a i body` stands for a
tikz node anchored at corner `a` with
`yshift=-\pagemargin-i*\imgheight-i*\vspacing` (the `i = 0` and `i > 0`
branches of lines 194-200 / 213-219 emit the same node, written without the
zero offset terms when `i = 0`), whose body is the expansion of the macro
call on line 202 / 221. -/
inductive Chunk where
  | header (qr_x_offset qr_y_offset qr_size : ℚ)
  | pageComment (pageNum : ℕ) (isBack : Bool)
  | duplexComment
  | beginTikz
  | node (anchor : Anchor) (offsetIndex : ℕ) (body : List TikzElem)
  | endTikz
  | newpage
  | footer
  deriving DecidableEq

/-- Expansion of `\overlayimage{front}{qr}` (template lines 151-166): the base
image, the QR overlay at `(\qrxoffset, \qryoffset)`, and three dashed cut
guides. -/
def overlayimage (front qr : String) : List TikzElem :=
  [TikzElem.baseImage front, TikzElem.qrOverlay qr,
    TikzElem.cutLine CutLine.bottom, TikzElem.cutLine CutLine.top,
    TikzElem.cutLine CutLine.right]

/-- Expansion of `\backimage{back}` (template lines 169-176): the base image
only — no QR overlay, no cut guides. -/
def backimage (back : String) : List TikzElem := [TikzElem.baseImage back]

/-- `notes_per_page = 4` (line 181). -/
def notes_per_page : ℕ := 4

/-- `num_pages = (len(qr_files) + notes_per_page - 1) // notes_per_page`
(line 182). -/
def num_pages (n : ℕ) : ℕ := (n + notes_per_page - 1) / notes_per_page

/-- The front page of group `page_idx` (lines 186-206):
`start_idx = page_idx * notes_per_page`,
`end_idx = min(start_idx + notes_per_page, len(qr_files))`, one node per
`i < end_idx - start_idx` overlaying artifact `start_idx + i`, followed by
an unconditional `\newpage` (line 206). -/
def frontBlock (qr_files : List String) (front_image : String) (page_idx : ℕ) : List Chunk :=
  [Chunk.pageComment (page_idx * 2 + 1) false, Chunk.beginTikz] ++
    (List.range (min (page_idx * notes_per_page + notes_per_page) qr_files.length
        - page_idx * notes_per_page)).map
      (fun i => Chunk.node Anchor.northWest i
        (overlayimage front_image (qr_files.getD (page_idx * notes_per_page + i) ""))) ++
    [Chunk.endTikz, Chunk.newpage]

/-- The back page of group `page_idx` (lines 209-227): the same number of
nodes as the front (`range(end_idx - start_idx)`), each showing the back
image anchored north-east, followed by `\newpage` only when
`page_idx < num_pages - 1` (lines 226-227). -/
def backBlock (qr_files : List String) (back_image : String) (page_idx : ℕ) : List Chunk :=
  [Chunk.pageComment (page_idx * 2 + 2) true, Chunk.duplexComment, Chunk.beginTikz] ++
    (List.range (min (page_idx * notes_per_page + notes_per_page) qr_files.length
        - page_idx * notes_per_page)).map
      (fun i => Chunk.node Anchor.northEast i (backimage back_image)) ++
    [Chunk.endTikz] ++
  (if page_idx < num_pages qr_files.length - 1 then [Chunk.newpage] else [])

/-- `generate_latex` (lines 106-232): the template header, then for each
`page_idx in range(num_pages)` the front page followed by the back page,
then `\end{document}`. -/
def generate_latex (qr_files : List String) (front_image back_image : String)
    (qr_x_offset qr_y_offset qr_size : ℚ) : List Chunk :=
  Chunk.header qr_x_offset qr_y_offset qr_size ::
    ((List.range (num_pages qr_files.length)).map
      (fun page_idx =>
        frontBlock qr_files front_image page_idx ++
          backBlock qr_files back_image page_idx)).flatten
    ++ [Chunk.footer]

/-! ## Observers on the layout document -/

/-- A front-page heading comment (`% ===== PAGE n (FRONT) =====`). -/
def isFrontPage : Chunk → Bool
  | Chunk.pageComment _ false => true
  | _ => false

/-- A back-page heading comment (`% ===== PAGE n (BACK) =====`). -/
def isBackPage : Chunk → Bool
  | Chunk.pageComment _ true => true
  | _ => false

/-- Page-structure markers: page heading comments and `\newpage` breaks. -/
def isMarker : Chunk → Bool
  | Chunk.pageComment _ _ => true
  | Chunk.newpage => true
  | _ => false

/-- The data of a tikz node chunk. -/
def nodeData : Chunk → Option (Anchor × ℕ × List TikzElem)
  | Chunk.node a i b => some (a, i, b)
  | _ => none

/-- The heading comments of pages `1, 2, …, 2 * num_pages` in emission order
(odd pages are fronts, even pages are backs). -/
def pageSeq (numPages : ℕ) : List Chunk :=
  (List.range (2 * numPages)).map (fun k => Chunk.pageComment (k + 1) (decide (k % 2 = 1)))

/-- The page markers as they would look if every page, including the last,
were followed by a break: used as a stepping stone for the pagination proof. -/
def fullBlocks (numPages : ℕ) : List Chunk :=
  ((List.range numPages).map (fun p =>
    [Chunk.pageComment (p * 2 + 1) false, Chunk.newpage,
      Chunk.pageComment (p * 2 + 2) true, Chunk.newpage])).flatten

/-! ## Post-batch fatal check and render (main, lines 318-345) -/

/-- How a run ends after the batch loop: `if not qr_files:` print the
`NoArtifactsProduced` error and `sys.exit(1)` with no LaTeX document written
(lines 318-320); otherwise write the layout document, compile it, and either
move the PDF into place or exit 1 on a render failure (lines 324-345). -/
inductive RunResult where
  | noArtifactsProduced (exitCode : ℕ)
  | renderFailed (doc : List Chunk) (exitCode : ℕ)
  | success (doc : List Chunk) (outputPdf : String)
  deriving DecidableEq

/-- `main` after the batch loop, with the typesetter's success supplied as
`compile_ok`. -/
def main_after_batch (qr_files : List String) (front_image back_image : String)
    (qr_x_offset qr_y_offset qr_size : ℚ) (compile_ok : Bool) (output : String) : RunResult :=
  if qr_files.isEmpty then RunResult.noArtifactsProduced 1
  else if compile_ok then
    RunResult.success
      (generate_latex qr_files front_image back_image qr_x_offset qr_y_offset qr_size) output
  else
    RunResult.renderFailed
      (generate_latex qr_files front_image back_image qr_x_offset qr_y_offset qr_size) 1

/-! ## Concrete environments used by witnesses -/

/-- An environment in which the first `magick` invocation fails. -/
def badEnv : Env := ⟨1, "magick: no decode delegate", 0, "", "", 0, ""⟩

/-- Every token's generation fails. -/
def constBadEnvs : ℕ → Env := fun _ => badEnv

/-- An environment in which `identify` (the dimension query) fails. -/
def identifyFailEnv : Env := ⟨0, "", 1, "identify: unable to open image", "", 0, ""⟩

/-- An environment in which all steps up to the icon overlay succeed and the
overlay itself fails. -/
def overlayFailEnv : Env := ⟨0, "", 0, "", "880", 1, "magick: compose failure"⟩

/-- An environment in which every step succeeds. -/
def okEnv : Env := ⟨0, "", 0, "", "880", 0, ""⟩

/-- Every token's generation succeeds. -/
def constOkEnvs : ℕ → Env := fun _ => okEnv

/-! # Theorems -/

/-! ## C5: token loader -/

/-- C5: the Token Loader returns, for any input, the ordered sequence of
whitespace-trimmed non-empty lines, preserving input order; a blank or
whitespace-only line never produces a token, and no other validation or
deduplication is applied: the result is exactly the stripped non-empty
lines, every returned token is non-empty, and the result is an order
preserving subsequence of the stripped input lines. -/
theorem load_notes_spec (lines : List String) :
    load_notes lines = (lines.map pyStrip).filter (fun s => s != "")
    ∧ (∀ t ∈ load_notes lines, t ≠ "")
    ∧ List.Sublist (load_notes lines) (lines.map pyStrip) := by
  have h : load_notes lines = (lines.map pyStrip).filter (fun s => s != "") := by
    unfold load_notes
    rw [List.filter_map]
    rfl
  refine ⟨h, ?_, ?_⟩
  · intro t ht
    rw [h] at ht
    have := List.of_mem_filter ht
    simpa using this
  · rw [h]
    exact List.filter_sublist _

/-- Witness for C5 at a concrete input containing a blank and a
whitespace-only line. -/
theorem load_notes_spec_witness :
    "alpha" ∈ load_notes ["  alpha ", "", "   ", "beta"] ∧ "alpha" ≠ "" :=
  ⟨by decide, (load_notes_spec ["  alpha ", "", "   ", "beta"]).2.1 "alpha" (by decide)⟩

/-! ## C4: error-correction auto-upgrade -/

/-- C4: if an icon overlay is requested and the error-correction flag is at
its default value `M`, the effective level becomes `H` and the informational
notice is printed; if no icon is requested, or the flag is at any
non-default value, the level is used as given and no notice is printed. -/
theorem error_correction_auto_upgrade (qr_icon : Option String) (level : String) :
    (pyTruthyOpt qr_icon = true →
      effective_args qr_icon default_error_correction = ("H", true))
    ∧ (pyTruthyOpt qr_icon = false → effective_args qr_icon level = (level, false))
    ∧ (level ≠ default_error_correction → effective_args qr_icon level = (level, false)) := by
  refine ⟨?_, ?_, ?_⟩
  · intro h
    simp [effective_args, default_error_correction, h]
  · intro h
    simp [effective_args, h]
  · intro h
    have hb : (level == "M") = false := by
      simpa [default_error_correction] using h
    simp [effective_args, hb]

/-- Witness for C4: a requested icon with the default level is upgraded. -/
theorem error_correction_auto_upgrade_witness :
    pyTruthyOpt (some "icon.png") = true
    ∧ effective_args (some "icon.png") default_error_correction = ("H", true) :=
  ⟨by decide, (error_correction_auto_upgrade (some "icon.png") "L").1 (by decide)⟩

/-! ## C10: per-token generation never raises into the batch loop -/

/-- C10: for every input and every outcome of the external tools, the
per-token artifact generation step yields a boolean value: either it
succeeds (and its `try` body ran to a normal `return`), or it evaluates to
`False` with a diagnostic printed — in particular an exception raised inside
the body is caught and converted to `False`, so a single token's error
cannot abort the batch by raising. -/
theorem qr_generation_total (note output_file level : String) (icon : Option String)
    (pct : ℚ) (env : Env) :
    ((generate_qr_code note output_file level icon pct env).ok = true
      ∧ generate_qr_code_body note output_file level icon pct env
          = Except.ok (generate_qr_code note output_file level icon pct env))
    ∨ ((generate_qr_code note output_file level icon pct env).ok = false
      ∧ (generate_qr_code note output_file level icon pct env).diagnostics ≠ []) := by
  unfold generate_qr_code generate_qr_code_body
  by_cases hi : pyTruthyOpt icon
  · simp only [hi, if_true]
    by_cases h1 : env.magick1_rc ≠ 0
    · simp [h1]
    · simp only [h1, if_false]
      by_cases h2 : env.identify_rc ≠ 0
      · simp [h2]
      · simp only [h2, if_false]
        cases hw : pyInt? (pyStrip env.identify_stdout) with
        | none => simp
        | some w =>
          by_cases h3 : env.overlay_rc ≠ 0
          · simp [h3]
          · simp [h3]
  · simp only [hi, if_false, Bool.false_eq_true]
    by_cases h1 : env.magick1_rc ≠ 0
    · simp [h1]
    · simp [h1]

/-! ## C9: temporary composite file cleanup (corrected) -/

/-- Counterexample to C9 as stated: a token processed with an icon
configured, for which the transparency step succeeds (so the temporary
composite file is created) but the dimension query fails: the function
returns before the overlay step and the temporary file is never removed. -/
theorem temp_cleanup_counterexample :
    (generate_qr_code "note" "out.png" "H" (some "icon.png") 20 identifyFailEnv).tempCreated
        = true
    ∧ (generate_qr_code "note" "out.png" "H" (some "icon.png") 20 identifyFailEnv).tempRemoved
        = false
    ∧ (generate_qr_code "note" "out.png" "H" (some "icon.png") 20 identifyFailEnv).ok
        = false := by
  refine ⟨rfl, rfl, rfl⟩

/-- C9 (amended): for a token processed with an icon configured whose
transparency step succeeds, if the run reaches the icon-overlay (consumer)
step — the dimension query succeeds and its output parses — the temporary
composite file is removed immediately after that step, regardless of whether
the overlay succeeds or fails; but if the dimension query fails, or its
output fails to parse (raising inside the body), the call returns `False`
with the temporary file created and never removed. -/
theorem temp_cleanup_after_overlay (note output_file level : String) (icon : Option String)
    (pct : ℚ) (env : Env) (hicon : pyTruthyOpt icon = true) (h1 : env.magick1_rc = 0) :
    (env.identify_rc = 0 → (pyInt? (pyStrip env.identify_stdout)).isSome = true →
      (generate_qr_code note output_file level icon pct env).tempCreated = true
      ∧ (generate_qr_code note output_file level icon pct env).tempRemoved = true)
    ∧ (env.identify_rc ≠ 0 →
      (generate_qr_code note output_file level icon pct env).tempCreated = true
      ∧ (generate_qr_code note output_file level icon pct env).tempRemoved = false)
    ∧ (env.identify_rc = 0 → pyInt? (pyStrip env.identify_stdout) = none →
      (generate_qr_code note output_file level icon pct env).tempCreated = true
      ∧ (generate_qr_code note output_file level icon pct env).tempRemoved = false) := by
  refine ⟨?_, ?_, ?_⟩
  · intro h2 hparse
    cases hw : pyInt? (pyStrip env.identify_stdout) with
    | none => rw [hw] at hparse; simp at hparse
    | some w =>
      unfold generate_qr_code generate_qr_code_body
      by_cases h3 : env.overlay_rc ≠ 0
      · simp [hicon, h1, h2, hw, h3]
      · simp [hicon, h1, h2, hw, h3]
  · intro h2
    unfold generate_qr_code generate_qr_code_body
    simp [hicon, h1, h2]
  · intro h2 hw
    unfold generate_qr_code generate_qr_code_body
    simp [hicon, h1, h2, hw]

/-- Witness for the amended C9: all steps up to the overlay succeed and the
overlay itself fails, yet the temporary file is removed. -/
theorem temp_cleanup_after_overlay_witness :
    (generate_qr_code "note" "out.png" "H" (some "icon.png") 20 overlayFailEnv).tempCreated
        = true
    ∧ (generate_qr_code "note" "out.png" "H" (some "icon.png") 20 overlayFailEnv).tempRemoved
        = true :=
  (temp_cleanup_after_overlay "note" "out.png" "H" (some "icon.png") 20 overlayFailEnv
    (by decide) rfl).1 rfl (by decide)

/-! ## C2, C3: batch loop ordering and filename assignment -/

/-- Characterization of the batch loop started at position `i`: the produced
artifact list is the input-order filter of the position-enumerated tokens at
which generation succeeds, each mapped to its positional path. -/
theorem build_qr_files_eq (qr_dir level : String) (icon : Option String) (pct : ℚ)
    (envs : ℕ → Env) :
    ∀ (notes : List String) (i : ℕ),
      build_qr_files qr_dir level icon pct envs notes i
        = ((List.enumFrom i notes).filter (fun e =>
            (generate_qr_code e.2 (qr_path qr_dir e.1) level icon pct (envs e.1)).ok)).map
          (fun e => qr_path qr_dir e.1)
  | [], i => rfl
  | note :: rest, i => by
    have ih := build_qr_files_eq qr_dir level icon pct envs rest (i + 1)
    simp only [build_qr_files, ih, List.enumFrom_cons, List.filter_cons]
    by_cases h : (generate_qr_code note (qr_path qr_dir i) level icon pct (envs i)).ok
    · simp [h]
    · simp [h]

/-- The trace of the batch loop started at position `i`: every token, in
input order, paired with its positionally assigned path and its outcome. -/
theorem batch_trace_eq (qr_dir level : String) (icon : Option String) (pct : ℚ)
    (envs : ℕ → Env) :
    ∀ (notes : List String) (i : ℕ),
      batch_trace qr_dir level icon pct envs notes i
        = (List.enumFrom i notes).map (fun e =>
            (qr_path qr_dir e.1,
              (generate_qr_code e.2 (qr_path qr_dir e.1) level icon pct (envs e.1)).ok))
  | [], i => rfl
  | note :: rest, i => by
    have ih := batch_trace_eq qr_dir level icon pct envs rest (i + 1)
    simp only [batch_trace, ih, List.enumFrom_cons, List.map_cons]

/-- C2: for every input token list and every outcome of the per-token
generation (any subset of tokens may fail), the ordered artifact list passed
to the layout document builder is exactly the successful tokens' artifacts in
input order, and it is an input-order subsequence of the full positional
artifact list — no reordering occurs regardless of which tokens fail. -/
theorem qr_files_order_subsequence (qr_dir level : String) (icon : Option String)
    (pct : ℚ) (envs : ℕ → Env) (notes : List String) :
    build_qr_files qr_dir level icon pct envs notes 1
      = ((List.enumFrom 1 notes).filter (fun e =>
          (generate_qr_code e.2 (qr_path qr_dir e.1) level icon pct (envs e.1)).ok)).map
        (fun e => qr_path qr_dir e.1)
    ∧ List.Sublist (build_qr_files qr_dir level icon pct envs notes 1)
        ((List.enumFrom 1 notes).map (fun e => qr_path qr_dir e.1)) := by
  refine ⟨build_qr_files_eq qr_dir level icon pct envs notes 1, ?_⟩
  rw [build_qr_files_eq qr_dir level icon pct envs notes 1]
  exact List.Sublist.map _ (List.filter_sublist _)

/-- C3: the token at 1-based input position `k + 1` is assigned the artifact
path `<qr_dir>/ecash_<k+1 zero-padded to 4 digits>.png`, from its input
position alone and before its generation outcome is known: the assigned path
sequence is the same for any two outcome environments (so a failing token
never shifts the filenames of subsequent tokens). -/
theorem artifact_filenames_positional (qr_dir level : String) (icon : Option String)
    (pct : ℚ) (envs envs' : ℕ → Env) (notes : List String) (k : ℕ)
    (hk : k < notes.length) :
    ((batch_trace qr_dir level icon pct envs notes 1).map Prod.fst)[k]?
        = some (qr_path qr_dir (k + 1))
    ∧ (batch_trace qr_dir level icon pct envs notes 1).map Prod.fst
        = (batch_trace qr_dir level icon pct envs' notes 1).map Prod.fst
    ∧ qr_path qr_dir (k + 1) = qr_dir ++ "/" ++ "ecash_" ++ pad4 (k + 1) ++ ".png" := by
  have hfst : ∀ es : ℕ → Env,
      (batch_trace qr_dir level icon pct es notes 1).map Prod.fst
        = (List.enumFrom 1 notes).map (fun e => qr_path qr_dir e.1) := by
    intro es
    rw [batch_trace_eq qr_dir level icon pct es notes 1, List.map_map]
    rfl
  refine ⟨?_, by rw [hfst envs, hfst envs'], ?_⟩
  · rw [hfst envs]
    rw [List.getElem?_map, List.getElem?_enumFrom]
    have : notes[k]? = some (notes.get ⟨k, hk⟩) := List.getElem?_eq_getElem hk
    rw [this]
    simp [Nat.add_comm 1 k]
  · simp only [qr_path, qr_filename, String.append_assoc]

/-- Witness for C3 at a concrete two-token list: the second token's path. -/
theorem artifact_filenames_positional_witness :
    ((batch_trace "qr_codes" "M" none 20 constBadEnvs ["tok1", "tok2"] 1).map Prod.fst)[1]?
        = some (qr_path "qr_codes" 2) :=
  (artifact_filenames_positional "qr_codes" "M" none 20 constBadEnvs constOkEnvs
    ["tok1", "tok2"] 1 (by decide)).1

/-! ## C8: zero successful artifacts is fatal, partial failure is not -/

/-- C8: if artifact generation fails for every token in the batch, the run
ends in the `NoArtifactsProduced` fatal error with exit code 1, carrying
neither a layout document nor an output PDF; if at least one token succeeds,
the artifact list is non-empty and the run is never the
`NoArtifactsProduced` error — per-token failures do not abort the batch. -/
theorem no_artifacts_fatal (notes : List String) (qr_dir level : String)
    (icon : Option String) (pct : ℚ) (envs : ℕ → Env) (front back : String)
    (x y sz : ℚ) (compile_ok : Bool) (output : String) :
    ((∀ (i : ℕ) (note : String),
        (generate_qr_code note (qr_path qr_dir i) level icon pct (envs i)).ok = false) →
      main_after_batch (build_qr_files qr_dir level icon pct envs notes 1)
          front back x y sz compile_ok output = RunResult.noArtifactsProduced 1)
    ∧ (∀ (k : ℕ) (hk : k < notes.length),
        (generate_qr_code (notes.get ⟨k, hk⟩) (qr_path qr_dir (k + 1)) level icon pct
            (envs (k + 1))).ok = true →
        build_qr_files qr_dir level icon pct envs notes 1 ≠ []
        ∧ ∀ e, main_after_batch (build_qr_files qr_dir level icon pct envs notes 1)
            front back x y sz compile_ok output ≠ RunResult.noArtifactsProduced e) := by
  constructor
  · intro hall
    have hnil : build_qr_files qr_dir level icon pct envs notes 1 = [] := by
      rw [build_qr_files_eq qr_dir level icon pct envs notes 1]
      have : (List.enumFrom 1 notes).filter (fun e =>
          (generate_qr_code e.2 (qr_path qr_dir e.1) level icon pct (envs e.1)).ok) = [] := by
        apply List.filter_eq_nil_iff.mpr
        intro a _ha
        simp [hall a.1 a.2]
      rw [this]
      rfl
    rw [hnil]
    rfl
  · intro k hk hok
    have hmem : (1 + k, notes.get ⟨k, hk⟩) ∈ List.enumFrom 1 notes := by
      have h0 : (List.enumFrom 1 notes)[k]? = some (1 + k, notes.get ⟨k, hk⟩) := by
        rw [List.getElem?_enumFrom]
        simp [List.getElem?_eq_getElem hk]
      exact List.getElem?_mem h0
    have hne : build_qr_files qr_dir level icon pct envs notes 1 ≠ [] := by
      rw [build_qr_files_eq qr_dir level icon pct envs notes 1]
      apply List.ne_nil_of_mem
      apply List.mem_map_of_mem
      apply List.mem_filter.mpr
      refine ⟨hmem, ?_⟩
      simpa [Nat.add_comm 1 k] using hok
    refine ⟨hne, ?_⟩
    intro e
    unfold main_after_batch
    have hempty : (build_qr_files qr_dir level icon pct envs notes 1).isEmpty = false := by
      cases hb : build_qr_files qr_dir level icon pct envs notes 1 with
      | nil => exact absurd hb hne
      | cons a t => rfl
    rw [hempty]
    by_cases hc : compile_ok
    · simp [hc]
    · simp [hc]

/-- Witness for C8: with one token whose generation fails, the run ends in
`NoArtifactsProduced` with exit code 1. -/
theorem no_artifacts_fatal_witness :
    main_after_batch (build_qr_files "qr_codes" "M" none 20 constBadEnvs ["token1"] 1)
        "front.png" "back.png" 0 0 7 true "ecash_notes.pdf"
      = RunResult.noArtifactsProduced 1 :=
  (no_artifacts_fatal ["token1"] "qr_codes" "M" none 20 constBadEnvs "front.png" "back.png"
    0 0 7 true "ecash_notes.pdf").1 (fun i note => rfl)

/-! ## Layout builder helper lemmas -/

/-- The source's page count `(n + notes_per_page - 1) // notes_per_page` is
the ceiling of `n / notes_per_page`. -/
theorem nat_ceil_div_pages (n : ℕ) :
    ⌈(n : ℚ) / (notes_per_page : ℚ)⌉₊ = num_pages n := by
  show ⌈(n : ℚ) / ((4 : ℕ) : ℚ)⌉₊ = (n + 4 - 1) / 4
  apply le_antisymm
  · apply Nat.ceil_le.mpr
    rw [div_le_iff₀ (by norm_num)]
    have h : (n : ℚ) ≤ (((n + 4 - 1) / 4 : ℕ) : ℚ) * ((4 : ℕ) : ℚ) := by
      have hn : n ≤ ((n + 4 - 1) / 4) * 4 := by omega
      exact_mod_cast hn
    simpa using h
  · have h := Nat.le_ceil ((n : ℚ) / ((4 : ℕ) : ℚ))
    rw [div_le_iff₀ (by norm_num)] at h
    have h2 : n ≤ ⌈(n : ℚ) / ((4 : ℕ) : ℚ)⌉₊ * 4 := by exact_mod_cast h
    omega

/-- `filterMap` of an everywhere-`some` function is a `map`. -/
theorem filterMap_some_comp {α β : Type} (f : α → β) (l : List α) :
    l.filterMap (fun a => some (f a)) = l.map f := by
  induction l with
  | nil => rfl
  | cons a t ih => simp [List.filterMap_cons, ih]

/-- The nodes of a front page block, in order. -/
theorem frontBlock_nodes (qr_files : List String) (front : String) (p : ℕ) :
    (frontBlock qr_files front p).filterMap nodeData
      = (List.range (min (p * notes_per_page + notes_per_page) qr_files.length
          - p * notes_per_page)).map
        (fun i => (Anchor.northWest, i,
          overlayimage front (qr_files.getD (p * notes_per_page + i) ""))) := by
  unfold frontBlock
  simp only [List.filterMap_append, List.filterMap_map]
  have hc : (nodeData ∘ fun i => Chunk.node Anchor.northWest i
        (overlayimage front (qr_files.getD (p * notes_per_page + i) "")))
      = fun i => some (Anchor.northWest, i,
        overlayimage front (qr_files.getD (p * notes_per_page + i) "")) := rfl
  rw [hc, filterMap_some_comp]
  simp [nodeData]

/-- The nodes of a back page block, in order. -/
theorem backBlock_nodes (qr_files : List String) (back : String) (p : ℕ) :
    (backBlock qr_files back p).filterMap nodeData
      = (List.range (min (p * notes_per_page + notes_per_page) qr_files.length
          - p * notes_per_page)).map
        (fun i => (Anchor.northEast, i, backimage back)) := by
  unfold backBlock
  have hc : (nodeData ∘ fun i => Chunk.node Anchor.northEast i (backimage back))
      = fun i => some (Anchor.northEast, i, backimage back) := rfl
  by_cases h : p < num_pages qr_files.length - 1
  · simp only [h, if_true, List.filterMap_append, List.filterMap_map]
    rw [hc, filterMap_some_comp]
    simp [nodeData]
  · simp only [h, if_false, List.filterMap_append, List.filterMap_map]
    rw [hc, filterMap_some_comp]
    simp [nodeData]

/-- Summing the constant 1 over a list counts its length. -/
theorem sum_map_one {α : Type} (l : List α) : (l.map (fun _ => (1 : ℕ))).sum = l.length := by
  induction l with
  | nil => rfl
  | cons a t ih => simp [ih, Nat.add_comm]

/-- Each page group emits exactly one front page heading. -/
theorem pageBlock_countP_front (qr_files : List String) (front back : String) (p : ℕ) :
    (frontBlock qr_files front p ++ backBlock qr_files back p).countP isFrontPage = 1 := by
  unfold frontBlock backBlock
  by_cases h : p < num_pages qr_files.length - 1
  · simp [h, List.countP_append, List.countP_cons, List.countP_map, isFrontPage,
      Function.comp_def, List.countP_false]
  · simp [h, List.countP_append, List.countP_cons, List.countP_map, isFrontPage,
      Function.comp_def, List.countP_false]

/-- Each page group emits exactly one back page heading. -/
theorem pageBlock_countP_back (qr_files : List String) (front back : String) (p : ℕ) :
    (frontBlock qr_files front p ++ backBlock qr_files back p).countP isBackPage = 1 := by
  unfold frontBlock backBlock
  by_cases h : p < num_pages qr_files.length - 1
  · simp [h, List.countP_append, List.countP_cons, List.countP_map, isBackPage,
      Function.comp_def, List.countP_false]
  · simp [h, List.countP_append, List.countP_cons, List.countP_map, isBackPage,
      Function.comp_def, List.countP_false]

/-- The generated document contains exactly `num_pages` front page headings
and `num_pages` back page headings. -/
theorem generate_latex_countP (qr_files : List String) (front back : String)
    (x y sz : ℚ) :
    (generate_latex qr_files front back x y sz).countP isFrontPage
        = num_pages qr_files.length
    ∧ (generate_latex qr_files front back x y sz).countP isBackPage
        = num_pages qr_files.length := by
  unfold generate_latex
  constructor
  · simp only [List.countP_cons, List.countP_append, List.countP_flatten, List.map_map]
    have h1 : (List.range (num_pages qr_files.length)).map
          (List.countP isFrontPage ∘ fun page_idx =>
            frontBlock qr_files front page_idx ++ backBlock qr_files back page_idx)
        = (List.range (num_pages qr_files.length)).map (fun _ => 1) := by
      apply List.map_congr_left
      intro p hp
      exact pageBlock_countP_front qr_files front back p
    rw [h1, sum_map_one, List.length_range]
    simp [isFrontPage]
  · simp only [List.countP_cons, List.countP_append, List.countP_flatten, List.map_map]
    have h1 : (List.range (num_pages qr_files.length)).map
          (List.countP isBackPage ∘ fun page_idx =>
            frontBlock qr_files front page_idx ++ backBlock qr_files back page_idx)
        = (List.range (num_pages qr_files.length)).map (fun _ => 1) := by
      apply List.map_congr_left
      intro p hp
      exact pageBlock_countP_back qr_files front back p
    rw [h1, sum_map_one, List.length_range]
    simp [isBackPage]

/-! ## C1: page pair count -/

/-- C1: for every non-empty artifact list given to the layout document
builder, the number of emitted front pages equals
`ceil(n / entries_per_page)` where `n` is the number of artifacts handed to
the builder (the successfully generated ones) and `entries_per_page` is 4,
and the number of back pages equals the number of front pages — one
front/back pair per group. -/
theorem page_pair_count_eq_ceil (qr_files : List String) (front back : String)
    (x y sz : ℚ) (h : qr_files ≠ []) :
    (generate_latex qr_files front back x y sz).countP isFrontPage
        = ⌈(qr_files.length : ℚ) / (notes_per_page : ℚ)⌉₊
    ∧ (generate_latex qr_files front back x y sz).countP isBackPage
        = (generate_latex qr_files front back x y sz).countP isFrontPage := by
  obtain ⟨hf, hb⟩ := generate_latex_countP qr_files front back x y sz
  rw [hf, hb, nat_ceil_div_pages]
  exact ⟨rfl, rfl⟩

/-- Witness for C1 at five artifacts (two page pairs). -/
theorem page_pair_count_eq_ceil_witness :
    (generate_latex ["q1", "q2", "q3", "q4", "q5"] "front.png" "back.png" 0 0 7).countP
        isFrontPage
      = ⌈((["q1", "q2", "q3", "q4", "q5"] : List String).length : ℚ) / (notes_per_page : ℚ)⌉₊ :=
  (page_pair_count_eq_ceil ["q1", "q2", "q3", "q4", "q5"] "front.png" "back.png" 0 0 7
    (by decide)).1

/-! ## C7: back pages mirror their front pages -/

/-- C7: for every page group, the back page stacks the back image exactly as
many times as the corresponding front page has entries, with the nodes
anchored at the top-RIGHT corner (the horizontal mirror of the fronts'
top-left anchoring) and carrying the same vertical offset indices
`0, 1, …` as the fronts; and a back node's body contains no QR code overlay
and no cut guide. -/
theorem back_page_mirror_spec (qr_files : List String) (front back : String) (p : ℕ) :
    (frontBlock qr_files front p).filterMap nodeData
        = (List.range (min (p * notes_per_page + notes_per_page) qr_files.length
            - p * notes_per_page)).map
          (fun i => (Anchor.northWest, i,
            overlayimage front (qr_files.getD (p * notes_per_page + i) "")))
    ∧ (backBlock qr_files back p).filterMap nodeData
        = (List.range (min (p * notes_per_page + notes_per_page) qr_files.length
            - p * notes_per_page)).map
          (fun i => (Anchor.northEast, i, backimage back))
    ∧ ((backBlock qr_files back p).filterMap nodeData).length
        = ((frontBlock qr_files front p).filterMap nodeData).length
    ∧ (∀ e ∈ backimage back,
        (∀ s, e ≠ TikzElem.qrOverlay s) ∧ ∀ c, e ≠ TikzElem.cutLine c) := by
  refine ⟨frontBlock_nodes qr_files front p, backBlock_nodes qr_files back p, ?_, ?_⟩
  · rw [frontBlock_nodes qr_files front p, backBlock_nodes qr_files back p]
    simp
  · intro e he
    have : e = TikzElem.baseImage back := by simpa [backimage] using he
    subst this
    exact ⟨fun s => by simp, fun c => by simp⟩

/-- Witness for C7 at a concrete five-artifact list, second page (one
entry). -/
theorem back_page_mirror_spec_witness :
    ((backBlock ["q1", "q2", "q3", "q4", "q5"] "back.png" 1).filterMap nodeData).length
      = ((frontBlock ["q1", "q2", "q3", "q4", "q5"] "front.png" 1).filterMap nodeData).length :=
  (back_page_mirror_spec ["q1", "q2", "q3", "q4", "q5"] "front.png" "back.png" 1).2.2.1

/-! ## C6: pagination structure -/

/-- Appending one element to an interspersed list. -/
theorem intersperse_append_singleton {α : Type} (s x : α) :
    ∀ (l : List α), List.intersperse s (l ++ [x])
      = List.intersperse s l ++ (if l.isEmpty then [x] else [s, x])
  | [] => by simp
  | [y] => by simp [List.intersperse_cons_cons, List.intersperse_singleton]
  | y :: z :: rest => by
    have ih := intersperse_append_singleton s x (z :: rest)
    simp only [List.cons_append, List.intersperse_cons_cons] at ih ⊢
    rw [ih]
    simp

/-- Unfolding one page pair at the end of the page-heading sequence. -/
theorem pageSeq_succ (N : ℕ) :
    pageSeq (N + 1) = pageSeq N
      ++ [Chunk.pageComment (N * 2 + 1) false, Chunk.pageComment (N * 2 + 2) true] := by
  unfold pageSeq
  have h2 : 2 * (N + 1) = (2 * N + 1) + 1 := by ring
  rw [h2, List.range_succ, List.range_succ]
  have e1 : (2 * N) % 2 = 0 := by omega
  have e2 : (2 * N + 1) % 2 = 1 := by omega
  have e3 : 2 * N + 1 = N * 2 + 1 := by ring
  have e4 : 2 * N + 1 + 1 = N * 2 + 2 := by ring
  have e5 : (N * 2 + 1) % 2 = 1 := by omega
  have e6 : (N * 2) % 2 = 0 := by omega
  simp [e1, e2, e3, e4, e5, e6]

/-- Unfolding one page pair at the end of `fullBlocks`. -/
theorem fullBlocks_succ (N : ℕ) :
    fullBlocks (N + 1) = fullBlocks N
      ++ [Chunk.pageComment (N * 2 + 1) false, Chunk.newpage,
          Chunk.pageComment (N * 2 + 2) true, Chunk.newpage] := by
  unfold fullBlocks
  rw [List.range_succ]
  simp

/-- The all-breaks marker list is the interspersed page sequence followed by
one trailing break (when there is at least one page). -/
theorem fullBlocks_eq_intersperse : ∀ N : ℕ,
    fullBlocks N = List.intersperse Chunk.newpage (pageSeq N)
      ++ (if N = 0 then [] else [Chunk.newpage])
  | 0 => by simp [fullBlocks, pageSeq]
  | N + 1 => by
    have ih := fullBlocks_eq_intersperse N
    rw [fullBlocks_succ, ih, pageSeq_succ]
    by_cases h0 : N = 0
    · subst h0
      simp [pageSeq, List.intersperse_cons_cons, List.intersperse_singleton]
    · have hne : (pageSeq N).isEmpty = false := by
        cases hps : pageSeq N with
        | nil =>
          exfalso
          have hlen := congrArg List.length hps
          simp [pageSeq] at hlen
          omega
        | cons u v => rfl
      have hsplit : pageSeq N ++ [Chunk.pageComment (N * 2 + 1) false,
          Chunk.pageComment (N * 2 + 2) true]
          = (pageSeq N ++ [Chunk.pageComment (N * 2 + 1) false])
            ++ [Chunk.pageComment (N * 2 + 2) true] := by simp
      rw [hsplit, intersperse_append_singleton, intersperse_append_singleton]
      simp [hne, h0]

/-- The page-structure markers of one page group: front heading, the
unconditional break after the front page, back heading, and a trailing break
exactly when the group is not the last. -/
theorem pageBlock_markers (qr_files : List String) (front back : String) (p : ℕ) :
    (frontBlock qr_files front p ++ backBlock qr_files back p).filter isMarker
      = [Chunk.pageComment (p * 2 + 1) false, Chunk.newpage,
          Chunk.pageComment (p * 2 + 2) true]
        ++ (if p < num_pages qr_files.length - 1 then [Chunk.newpage] else []) := by
  unfold frontBlock backBlock
  by_cases h : p < num_pages qr_files.length - 1
  · simp [h, List.filter_append, List.filter_map, isMarker, Function.comp_def]
  · simp [h, List.filter_append, List.filter_map, isMarker, Function.comp_def]

/-- The page-structure markers of the whole generated document: the page
headings `1, …, 2 * num_pages` in order with exactly one break between each
pair of consecutive pages and no break after the last page. -/
theorem generate_latex_markers (qr_files : List String) (front back : String)
    (x y sz : ℚ) (h : qr_files ≠ []) :
    (generate_latex qr_files front back x y sz).filter isMarker
      = List.intersperse Chunk.newpage (pageSeq (num_pages qr_files.length)) := by
  have hlen : qr_files.length ≠ 0 := by
    simpa [List.length_eq_zero] using h
  have hN : 1 ≤ num_pages qr_files.length := by
    unfold num_pages notes_per_page
    omega
  obtain ⟨M, hM⟩ : ∃ M, num_pages qr_files.length = M + 1 :=
    ⟨num_pages qr_files.length - 1, by omega⟩
  unfold generate_latex
  simp only [List.filter_cons, List.filter_append, isMarker, List.filter_flatten,
    List.map_map, if_false, cond_false]
  have hblocks : (List.range (num_pages qr_files.length)).map
        (List.filter isMarker ∘ fun page_idx =>
          frontBlock qr_files front page_idx ++ backBlock qr_files back page_idx)
      = (List.range (num_pages qr_files.length)).map
        (fun p => [Chunk.pageComment (p * 2 + 1) false, Chunk.newpage,
            Chunk.pageComment (p * 2 + 2) true]
          ++ (if p < num_pages qr_files.length - 1 then [Chunk.newpage] else [])) := by
    apply List.map_congr_left
    intro p hp
    exact pageBlock_markers qr_files front back p
  rw [hblocks, hM, List.range_succ, List.map_append]
  have hfull : (List.range M).map
        (fun p => [Chunk.pageComment (p * 2 + 1) false, Chunk.newpage,
            Chunk.pageComment (p * 2 + 2) true]
          ++ (if p < M + 1 - 1 then [Chunk.newpage] else []))
      = (List.range M).map
        (fun p => [Chunk.pageComment (p * 2 + 1) false, Chunk.newpage,
            Chunk.pageComment (p * 2 + 2) true, Chunk.newpage]) := by
    apply List.map_congr_left
    intro p hp
    have hpM : p < M := List.mem_range.mp hp
    simp [hpM]
  rw [hfull]
  have hlast : (if M < M + 1 - 1 then [Chunk.newpage] else []) = ([] : List Chunk) := by
    simp
  simp only [List.map_cons, List.map_nil, hlast, List.flatten_append]
  have hfb : ((List.range M).map
        (fun p => [Chunk.pageComment (p * 2 + 1) false, Chunk.newpage,
            Chunk.pageComment (p * 2 + 2) true, Chunk.newpage])).flatten
      = fullBlocks M := rfl
  rw [hfb, fullBlocks_eq_intersperse M, pageSeq_succ M]
  by_cases h0 : M = 0
  · subst h0
    simp [pageSeq, List.intersperse_cons_cons, List.intersperse_singleton]
  · have hne : (pageSeq M).isEmpty = false := by
      cases hps : pageSeq M with
      | nil =>
        exfalso
        have hl := congrArg List.length hps
        simp [pageSeq] at hl
        omega
      | cons u v => rfl
    have hsplit : pageSeq M ++ [Chunk.pageComment (M * 2 + 1) false,
        Chunk.pageComment (M * 2 + 2) true]
        = (pageSeq M ++ [Chunk.pageComment (M * 2 + 1) false])
          ++ [Chunk.pageComment (M * 2 + 2) true] := by simp
    rw [hsplit, intersperse_append_singleton, intersperse_append_singleton]
    simp [hne, h0]

/-- C6: for every non-empty artifact list, every group of the ceil-partition
yields exactly one front and one back page — the document's page markers are
the headings of pages `1, …, 2 * num_pages` in order with exactly one page
break between consecutive pages and none after the very last page; the final
group's front and back pages contain exactly the remaining
`n - entries_per_page * (num_pages - 1)` entries (between 1 and
`entries_per_page`, no padding placeholders); and exactly `entries_per_page`
artifacts yield exactly one front/back pair with no trailing empty page. -/
theorem layout_pagination_spec (qr_files : List String) (front back : String)
    (x y sz : ℚ) (h : qr_files ≠ []) :
    (generate_latex qr_files front back x y sz).filter isMarker
        = List.intersperse Chunk.newpage (pageSeq (num_pages qr_files.length))
    ∧ ((frontBlock qr_files front (num_pages qr_files.length - 1)).filterMap nodeData).length
        = qr_files.length - notes_per_page * (num_pages qr_files.length - 1)
    ∧ ((backBlock qr_files back (num_pages qr_files.length - 1)).filterMap nodeData).length
        = qr_files.length - notes_per_page * (num_pages qr_files.length - 1)
    ∧ 1 ≤ qr_files.length - notes_per_page * (num_pages qr_files.length - 1)
    ∧ qr_files.length - notes_per_page * (num_pages qr_files.length - 1) ≤ notes_per_page
    ∧ (qr_files.length = notes_per_page →
        (generate_latex qr_files front back x y sz).filter isMarker
          = [Chunk.pageComment 1 false, Chunk.newpage, Chunk.pageComment 2 true]) := by
  have hlen : qr_files.length ≠ 0 := by
    simpa [List.length_eq_zero] using h
  have hmarkers := generate_latex_markers qr_files front back x y sz h
  have harith : min ((num_pages qr_files.length - 1) * notes_per_page + notes_per_page)
        qr_files.length - (num_pages qr_files.length - 1) * notes_per_page
      = qr_files.length - notes_per_page * (num_pages qr_files.length - 1) := by
    unfold num_pages notes_per_page
    omega
  have hflen : ((frontBlock qr_files front (num_pages qr_files.length - 1)).filterMap
        nodeData).length
      = qr_files.length - notes_per_page * (num_pages qr_files.length - 1) := by
    rw [frontBlock_nodes, List.length_map, List.length_range, harith]
  have hblen : ((backBlock qr_files back (num_pages qr_files.length - 1)).filterMap
        nodeData).length
      = qr_files.length - notes_per_page * (num_pages qr_files.length - 1) := by
    rw [backBlock_nodes, List.length_map, List.length_range, harith]
  refine ⟨hmarkers, hflen, hblen, ?_, ?_, ?_⟩
  · unfold num_pages notes_per_page
    omega
  · unfold num_pages notes_per_page
    omega
  · intro h4
    rw [hmarkers, h4]
    decide

/-- Witness for C6 at exactly four artifacts: one pair, one break, no
trailing empty page. -/
theorem layout_pagination_spec_witness :
    (generate_latex ["q1", "q2", "q3", "q4"] "front.png" "back.png" 0 0 7).filter isMarker
      = List.intersperse Chunk.newpage
          (pageSeq (num_pages (["q1", "q2", "q3", "q4"] : List String).length)) :=
  (layout_pagination_spec ["q1", "q2", "q3", "q4"] "front.png" "back.png" 0 0 7
    (by decide)).1
